import Mathlib

/-!
Shallow embedding of `x/wasm/keeper/handler_plugin.go` from wasmd:
the message-routing layer between the contract execution sandbox and the
host ledger modules.  External collaborators (routers, channel store,
capability store, coin ledger) are modelled as function-valued fields so
that each handler's control flow can be translated line by line.
-/

set_option autoImplicit false

namespace Wasmd

/-- Bech32 account address (`sdk.AccAddress`), modelled as a string. -/
abbrev AccAddress := String

/-- An emitted event (`sdk.Event`).  The dispatch layer only moves events
around, never inspects them, so an opaque string suffices. -/
abbrev Event := String

/-- An opaque byte blob (`[]byte`), modelled as a list of byte values. -/
abbrev Data := List Nat

/-- The sdk context (`sdk.Context`).  The handlers only thread it through
to the external stores, whose behaviour lives in the keeper models, so a
single numeric tag is enough to distinguish contexts. -/
abbrev SdkContext := Nat

/-- Error values flowing through the dispatch layer.  `wrapped` models
`sdkerrors.Wrap(label, cause)`; the base constructors model the sentinel
error values (`types.ErrUnknownMsg`, `sdkerrors.ErrUnauthorized`, ...). -/
inductive DispatchError where
  | unknownMsg
  | unauthorized
  | panicErr
  | unknownRequest
  | unsupportedForContract
  | emptyErr
  | invalidCoins (amount : String)
  | sequenceSendNotFound
  | invalidChannel
  | channelCapabilityNotFound
  | externalErr (msg : String)
  | wrapped (label : String) (cause : DispatchError)
  deriving DecidableEq, Repr

namespace DispatchError

/-- Go's `errors.Is(err, types.ErrUnknownMsg)`: true for the sentinel
itself and for any chain of wrappers around it. -/
def isUnknownMsgErr : DispatchError → Bool
  | unknownMsg => true
  | wrapped _ cause => cause.isUnknownMsgErr
  | _ => false

end DispatchError

/-- wasmvm `IBCTimeoutBlock`: a block height on a counterparty chain. -/
structure IBCTimeoutBlock where
  revision : Nat
  height : Nat
  deriving DecidableEq, Repr

/-- wasmvm `IBCTimeout`: block-height and/or timestamp packet timeout. -/
structure IBCTimeout where
  block : Option IBCTimeoutBlock
  timestamp : Nat
  deriving DecidableEq, Repr

/-- wasmvm `SendPacketMsg`: the raw IBC send-packet request. -/
structure SendPacketMsg where
  channelID : String
  data : Data
  timeout : IBCTimeout
  deriving DecidableEq, Repr

/-- wasmvm `IBCMsg`: this layer only uses the `SendPacket` variant. -/
structure IBCMsg where
  sendPacket : Option SendPacketMsg
  deriving DecidableEq, Repr

/-- wasmvm `Coin`: denomination plus a decimal-string quantity. -/
structure WasmCoin where
  denom : String
  amount : String
  deriving DecidableEq, Repr

/-- wasmvm `BurnMsg`: coins the contract asks to destroy. -/
structure BurnMsg where
  amount : List WasmCoin
  deriving DecidableEq, Repr

/-- wasmvm `BankMsg`: this layer only uses the `Burn` variant. -/
structure BankMsg where
  burn : Option BurnMsg
  deriving DecidableEq, Repr

/-- wasmvm `CosmosMsg`, the abstract message emitted by a contract.
Only the sub-unions this file inspects (`Bank`, `IBC`) are modelled; an
extra tag keeps distinct "other" variants distinguishable. -/
structure CosmosMsg where
  bank : Option BankMsg := none
  ibc : Option IBCMsg := none
  otherTag : Nat := 0
  deriving DecidableEq, Repr

/-- Result triple of a `Messenger.DispatchMsg` call:
`(events []sdk.Event, data [][]byte, err error)`. -/
abbrev HandlerResult := List Event × List Data × Option DispatchError

/-- The `Messenger` interface: anything with a `DispatchMsg` method. -/
abbrev Messenger := SdkContext → AccAddress → String → CosmosMsg → HandlerResult

/-- `sdk.Result`: the data blob and events a routed handler returns. -/
structure SdkResult where
  data : Data
  events : List Event
  deriving DecidableEq, Repr

/-- An `sdk.Msg` produced by the encoder, modelled by its observable
behaviour: its self-validation outcome, declared signers, optional legacy
route (present iff the Go value implements `legacytx.LegacyMsg`) and a
rendering used in the `"can't route message %+v"` error. -/
structure SdkMsgSig where
  validateBasic : Option DispatchError
  signers : List AccAddress
  legacyRoute : Option String
  display : String
  deriving DecidableEq, Repr

/-- A routed message handler (`sdk.Handler` / ADR-031 service handler):
takes the context and the message, returns a result or an error. -/
abbrev SdkHandler := SdkContext → SdkMsgSig → Except DispatchError SdkResult

/-- `SDKMessageHandler`: encodes abstract messages into sdk messages and
routes them.  `router` models the legacy `sdk.Router` (its `Route(ctx,
path)` lookup), `msgRouter` the `*baseapp.MsgServiceRouter` (a nil-able
pointer whose `Handler(msg)` lookup may itself return nil), `encoders`
the `msgEncoder.Encode` extension point. -/
structure SDKMessageHandler where
  router : SdkContext → String → Option SdkHandler
  msgRouter : Option (SdkMsgSig → Option SdkHandler)
  encoders : SdkContext → AccAddress → String → CosmosMsg → Except DispatchError (List SdkMsgSig)

/-- `NewSDKMessageHandler`. -/
def NewSDKMessageHandler (router : SdkContext → String → Option SdkHandler)
    (msgRouter : Option (SdkMsgSig → Option SdkHandler))
    (encoders : SdkContext → AccAddress → String → CosmosMsg → Except DispatchError (List SdkMsgSig)) :
    SDKMessageHandler :=
  { router := router, msgRouter := msgRouter, encoders := encoders }

/-- `SDKMessageHandler.handleSdkMessage`: validate, authorize (every
declared signer must equal the contract address), then route through the
modern service router first and the legacy route table second. -/
def SDKMessageHandler.handleSdkMessage (h : SDKMessageHandler) (ctx : SdkContext)
    (contractAddr : AccAddress) (msg : SdkMsgSig) : Except DispatchError SdkResult :=
  match msg.validateBasic with
  | some e => .error e
  | none =>
    -- make sure this account can send it
    if msg.signers.all (fun acct => acct == contractAddr) then
      match h.msgRouter with
      | none => .error (.wrapped ">>> msgRouter is nil!!!" .panicErr)
      | some msgRouterHandler =>
        match msgRouterHandler msg with
        | some handler =>
          -- ADR 031 request type routing
          match handler ctx msg with
          | .error e => .error e
          | .ok res => .ok res
        | none =>
          match msg.legacyRoute with
          | some route =>
            -- legacy sdk.Msg routing
            match h.router ctx route with
            | none =>
              .error (.wrapped ("unrecognized message route: " ++ route ++ "; message")
                .unknownRequest)
            | some handler =>
              match handler ctx msg with
              | .error e => .error e
              | .ok res => .ok res
          | none => .error (.wrapped ("can't route message " ++ msg.display) .unknownRequest)
    else
      .error (.wrapped "contract doesn't have permission" .unauthorized)

/-- The loop body of `SDKMessageHandler.DispatchMsg`: handle each encoded
sdk message in order, abort with `(nil, nil, err)` on the first failure,
otherwise accumulate each result's data blob and events. -/
def SDKMessageHandler.dispatchLoop (h : SDKMessageHandler) (ctx : SdkContext)
    (contractAddr : AccAddress) :
    List SdkMsgSig → List Event → List Data → HandlerResult
  | [], events, data => (events, data, none)
  | sdkMsg :: rest, events, data =>
    match h.handleSdkMessage ctx contractAddr sdkMsg with
    | .error e => ([], [], some e)
    | .ok res => h.dispatchLoop ctx contractAddr rest (events ++ res.events) (data ++ [res.data])

/-- `SDKMessageHandler.DispatchMsg`: encode, then handle every produced
sdk message in order. -/
def SDKMessageHandler.DispatchMsg (h : SDKMessageHandler) (ctx : SdkContext)
    (contractAddr : AccAddress) (contractIBCPortID : String) (msg : CosmosMsg) : HandlerResult :=
  match h.encoders ctx contractAddr contractIBCPortID msg with
  | .error e => ([], [], some e)
  | .ok sdkMsgs => h.dispatchLoop ctx contractAddr sdkMsgs [] []

/-- `MessageHandlerChain`: an ordered list of handlers tried one by one. -/
structure MessageHandlerChain where
  handlers : List Messenger

/-- The position-checking loop of `NewMessageHandlerChain`: Go panics at
the first nil handler, modelled as an `Except.error` carrying the panic
message; otherwise the unwrapped handler list is produced. -/
def collectHandlers : List (Option Messenger) → Nat → Except String (List Messenger)
  | [], _ => .ok []
  | none :: _, i => .error ("handler must not be nil at position : " ++ toString i)
  | some h :: rest, i =>
    match collectHandlers rest (i + 1) with
    | .error e => .error e
    | .ok hs => .ok (h :: hs)

/-- `NewMessageHandlerChain(first, others...)`: build the chain from the
non-empty argument list, failing fatally (Go `panic`) if any entry is
nil. -/
def NewMessageHandlerChain (first : Option Messenger) (others : List (Option Messenger)) :
    Except String MessageHandlerChain :=
  match collectHandlers (first :: others) 0 with
  | .error e => .error e
  | .ok hs => .ok { handlers := hs }

/-- The loop of `MessageHandlerChain.DispatchMsg` over the handler list:
return the first result whose error is nil or does not match
`types.ErrUnknownMsg`; when the list is exhausted, fail with
`sdkerrors.Wrap(types.ErrUnknownMsg, "no handler found")`. -/
def dispatchChainList (ctx : SdkContext) (contractAddr : AccAddress)
    (contractIBCPortID : String) (msg : CosmosMsg) : List Messenger → HandlerResult
  | [] => ([], [], some (.wrapped "no handler found" .unknownMsg))
  | h :: rest =>
    match h ctx contractAddr contractIBCPortID msg with
    | (events, data, none) => (events, data, none)
    | (events, data, some e) =>
      if e.isUnknownMsgErr then dispatchChainList ctx contractAddr contractIBCPortID msg rest
      else (events, data, some e)

/-- `MessageHandlerChain.DispatchMsg`. -/
def MessageHandlerChain.DispatchMsg (m : MessageHandlerChain) (ctx : SdkContext)
    (contractAddr : AccAddress) (contractIBCPortID : String) (msg : CosmosMsg) : HandlerResult :=
  dispatchChainList ctx contractAddr contractIBCPortID msg m.handlers

/-- ibc-go `clienttypes.Height`: the host chain's height representation. -/
structure CosmosHeight where
  revisionNumber : Nat
  revisionHeight : Nat
  deriving DecidableEq, Repr

/-- Modelled from the spec: `convertWasmIBCTimeoutHeightToCosmosHeight`
is defined elsewhere in the repository (not in this file); the spec says
the handler is "converting the message's block-height timeout
representation into the host's height representation", so an absent
block timeout maps to the zero height and a present one maps its
revision/height fields across. -/
def convertWasmIBCTimeoutHeightToCosmosHeight : Option IBCTimeoutBlock → CosmosHeight
  | none => { revisionNumber := 0, revisionHeight := 0 }
  | some b => { revisionNumber := b.revision, revisionHeight := b.height }

/-- ibc-go channel `Counterparty`: the remote (port, channel) pair. -/
structure Counterparty where
  portId : String
  channelId : String
  deriving DecidableEq, Repr

/-- ibc-go `channeltypes.Channel`, reduced to the field this layer
reads: its counterparty endpoint. -/
structure Channel where
  counterparty : Counterparty
  deriving DecidableEq, Repr

/-- An opaque capability token (`*capabilitytypes.Capability`). -/
abbrev Capability := Nat

/-- ibc-go `channeltypes.Packet`, as built by `channeltypes.NewPacket`. -/
structure Packet where
  data : Data
  sequence : Nat
  sourcePort : String
  sourceChannel : String
  destinationPort : String
  destinationChannel : String
  timeoutHeight : CosmosHeight
  timeoutTimestamp : Nat
  deriving DecidableEq, Repr

/-- `channeltypes.NewPacket` (external constructor), argument order as in
ibc-go. -/
def NewPacket (data : Data) (sequence : Nat) (sourcePort sourceChannel : String)
    (destinationPort destinationChannel : String) (timeoutHeight : CosmosHeight)
    (timeoutTimestamp : Nat) : Packet :=
  { data := data, sequence := sequence, sourcePort := sourcePort,
    sourceChannel := sourceChannel, destinationPort := destinationPort,
    destinationChannel := destinationChannel, timeoutHeight := timeoutHeight,
    timeoutTimestamp := timeoutTimestamp }

/-- ibc-go `host.ChannelCapabilityPath(portID, channelID)` (external key
helper): the store path for a channel's capability. -/
def channelCapabilityPath (portID channelID : String) : String :=
  "ports/" ++ portID ++ "/channels/" ++ channelID

/-- `types.ChannelKeeper` (external channel/sequence store), modelled by
its three operations as used here. -/
structure ChannelKeeper where
  getNextSequenceSend : SdkContext → String → String → Option Nat
  getChannel : SdkContext → String → String → Option Channel
  sendPacket : SdkContext → Capability → Packet → Option DispatchError

/-- `types.CapabilityKeeper` (external capability store). -/
structure CapabilityKeeper where
  getCapability : SdkContext → String → Option Capability

/-- `IBCRawPacketHandler`: publishes raw IBC packets onto a channel. -/
structure IBCRawPacketHandler where
  channelKeeper : ChannelKeeper
  capabilityKeeper : CapabilityKeeper

/-- `NewIBCRawPacketHandler`. -/
def NewIBCRawPacketHandler (chk : ChannelKeeper) (cak : CapabilityKeeper) :
    IBCRawPacketHandler :=
  { channelKeeper := chk, capabilityKeeper := cak }

/-- `IBCRawPacketHandler.DispatchMsg`, instrumented: alongside the
returned `HandlerResult`, records the packet submitted to
`channelKeeper.SendPacket` (if any), so that "a Packet is submitted only
when all checks pass" is observable.  The contract address parameter is
unused by the source (`_ sdk.AccAddress`). -/
def IBCRawPacketHandler.dispatchWithPacket (h : IBCRawPacketHandler) (ctx : SdkContext)
    (_contractAddr : AccAddress) (contractIBCPortID : String) (msg : CosmosMsg) :
    HandlerResult × Option Packet :=
  match msg.ibc with
  | none => (([], [], some .unknownMsg), none)
  | some ibcMsg =>
    match ibcMsg.sendPacket with
    | none => (([], [], some .unknownMsg), none)
    | some sendPacketMsg =>
      if contractIBCPortID = "" then
        (([], [], some (.wrapped "ibc not supported" .unsupportedForContract)), none)
      else
        let contractIBCChannelID := sendPacketMsg.channelID
        if contractIBCChannelID = "" then
          (([], [], some (.wrapped "ibc channel" .emptyErr)), none)
        else
          match h.channelKeeper.getNextSequenceSend ctx contractIBCPortID contractIBCChannelID with
          | none =>
            (([], [],
              some (.wrapped
                ("source port: " ++ contractIBCPortID ++ ", source channel: " ++
                  contractIBCChannelID)
                .sequenceSendNotFound)), none)
          | some sequence =>
            match h.channelKeeper.getChannel ctx contractIBCPortID contractIBCChannelID with
            | none => (([], [], some (.wrapped "not found" .invalidChannel)), none)
            | some channelInfo =>
              match h.capabilityKeeper.getCapability ctx
                  (channelCapabilityPath contractIBCPortID contractIBCChannelID) with
              | none =>
                (([], [],
                  some (.wrapped "module does not own channel capability"
                    .channelCapabilityNotFound)), none)
              | some channelCap =>
                let packet := NewPacket sendPacketMsg.data sequence contractIBCPortID
                  contractIBCChannelID channelInfo.counterparty.portId
                  channelInfo.counterparty.channelId
                  (convertWasmIBCTimeoutHeightToCosmosHeight sendPacketMsg.timeout.block)
                  sendPacketMsg.timeout.timestamp
                (([], [], h.channelKeeper.sendPacket ctx channelCap packet), some packet)

/-- `IBCRawPacketHandler.DispatchMsg`: the `Messenger` view, forgetting
the instrumentation. -/
def IBCRawPacketHandler.DispatchMsg (h : IBCRawPacketHandler) (ctx : SdkContext)
    (contractAddr : AccAddress) (contractIBCPortID : String) (msg : CosmosMsg) : HandlerResult :=
  (h.dispatchWithPacket ctx contractAddr contractIBCPortID msg).1

/-- `sdk.Coin`: denomination plus a non-negative quantity. -/
structure Coin where
  denom : String
  amount : Nat
  deriving DecidableEq, Repr

/-- `types.ModuleName` of the wasm module. -/
def ModuleName : String := "wasm"

/-- Base-10 digit accumulation over a character list; `none` on any
non-digit character. -/
def parseDecimalAux : List Char → Nat → Option Nat
  | [], acc => some acc
  | c :: rest, acc =>
    if c.isDigit then parseDecimalAux rest (acc * 10 + (c.toNat - '0'.toNat)) else none

/-- Parse a non-empty decimal string into a natural number. -/
def parseDecimal (s : String) : Option Nat :=
  match s.data with
  | [] => none
  | cs => parseDecimalAux cs 0

/-- Modelled from the spec: `convertWasmCoinsToSdkCoins` is defined
elsewhere in the repository (not in this file); the spec says the
handler "converts the message's amount list into the host's coin
representation" and may fail on a malformed amount, so each coin's
decimal-string quantity is parsed, failing on non-numeric input. -/
def convertWasmCoinsToSdkCoins (coins : List WasmCoin) : Except DispatchError (List Coin) :=
  match coins with
  | [] => .ok []
  | c :: rest =>
    match parseDecimal c.amount with
    | none => .error (.invalidCoins c.amount)
    | some n =>
      match convertWasmCoinsToSdkCoins rest with
      | .error e => .error e
      | .ok cs => .ok ({ denom := c.denom, amount := n } :: cs)

/-- `types.Burner` (external coin ledger), modelled by its two
operations. -/
structure Burner where
  sendCoinsFromAccountToModule : SdkContext → AccAddress → String → List Coin → Option DispatchError
  burnCoins : SdkContext → String → List Coin → Option DispatchError

/-- One observable call into the coin ledger. -/
inductive LedgerCall where
  | transferToModule (sender : AccAddress) (moduleName : String) (amount : List Coin)
  | burn (moduleName : String) (amount : List Coin)
  deriving DecidableEq, Repr

/-- The handler closure built by `NewBurnCoinMessageHandler`,
instrumented with the ordered trace of coin-ledger calls it performs.
The port-ID parameter is unused by the source (`_ string`). -/
def burnCoinHandlerWithTrace (burner : Burner) (ctx : SdkContext) (contractAddr : AccAddress)
    (_contractIBCPortID : String) (msg : CosmosMsg) : HandlerResult × List LedgerCall :=
  match msg.bank with
  | none => (([], [], some .unknownMsg), [])
  | some bankMsg =>
    match bankMsg.burn with
    | none => (([], [], some .unknownMsg), [])
    | some burnMsg =>
      match convertWasmCoinsToSdkCoins burnMsg.amount with
      | .error e => (([], [], some e), [])
      | .ok coins =>
        match burner.sendCoinsFromAccountToModule ctx contractAddr ModuleName coins with
        | some e =>
          (([], [], some (.wrapped "transfer to module" e)),
            [.transferToModule contractAddr ModuleName coins])
        | none =>
          match burner.burnCoins ctx ModuleName coins with
          | some e =>
            (([], [], some (.wrapped "burn coins" e)),
              [.transferToModule contractAddr ModuleName coins, .burn ModuleName coins])
          | none =>
            (([], [], none),
              [.transferToModule contractAddr ModuleName coins, .burn ModuleName coins])

/-- `NewBurnCoinMessageHandler`: the `Messenger` view, forgetting the
instrumentation. -/
def NewBurnCoinMessageHandler (burner : Burner) : Messenger :=
  fun ctx contractAddr contractIBCPortID msg =>
    (burnCoinHandlerWithTrace burner ctx contractAddr contractIBCPortID msg).1

/-! ### Concrete instances used by witnesses -/

/-- A handler that recognizes nothing. -/
def unknownMessenger : Messenger := fun _ _ _ _ => ([], [], some .unknownMsg)

/-- A handler that accepts every message with a fixed result. -/
def constMessenger : Messenger := fun _ _ _ _ => (["evA"], [[3]], none)

/-- A handler that fails hard on every message. -/
def failingMessenger : Messenger := fun _ _ _ _ => ([], [], some (.externalErr "boom"))

/-- A routed handler accepting every sdk message with a fixed result. -/
def acceptAllSdkHandler : SdkHandler := fun _ _ => .ok { data := [7], events := ["routed"] }

/-- An `SDKMessageHandler` whose modern service router accepts every sdk
message and whose legacy route table is empty; its encoder recognizes
nothing. -/
def modernOnlyHandler : SDKMessageHandler :=
  { router := fun _ _ => none,
    msgRouter := some fun _ => some acceptAllSdkHandler,
    encoders := fun _ _ _ _ => .error .unknownMsg }

/-- An `SDKMessageHandler` whose modern service router declares no
handler and whose legacy route table serves only the `"bank"` route. -/
def legacyOnlyHandler : SDKMessageHandler :=
  { router := fun _ route => if route = "bank" then some acceptAllSdkHandler else none,
    msgRouter := some fun _ => none,
    encoders := fun _ _ _ _ => .error .unknownMsg }

/-- A valid sdk message declaring no signer at all. -/
def noSignerMsg : SdkMsgSig :=
  { validateBasic := none, signers := [], legacyRoute := none, display := "m0" }

/-- A valid sdk message whose only signer is not the contract. -/
def badSignerMsg : SdkMsgSig :=
  { validateBasic := none, signers := ["other"], legacyRoute := none, display := "m1" }

/-- A valid sdk message signed by the contract `"contract1"`. -/
def goodMsg : SdkMsgSig :=
  { validateBasic := none, signers := ["contract1"], legacyRoute := none, display := "m2" }

/-- A valid sdk message signed by the contract `"contract1"` carrying the
legacy route `"bank"`. -/
def legacyRoutedMsg : SdkMsgSig :=
  { validateBasic := none, signers := ["contract1"], legacyRoute := some "bank", display := "m3" }

/-- An `SDKMessageHandler` whose encoder yields two routable messages. -/
def batchEncHandler : SDKMessageHandler :=
  { router := fun _ _ => none,
    msgRouter := some fun _ => some acceptAllSdkHandler,
    encoders := fun _ _ _ _ => .ok [goodMsg, goodMsg] }

/-- A channel store holding channel `(wasm.C1, channel-0)` with next send
sequence 42 and counterparty `(transfer, channel-7)`; submission always
succeeds. -/
def testChannelKeeper : ChannelKeeper :=
  { getNextSequenceSend := fun _ port channel =>
      if port = "wasm.C1" ∧ channel = "channel-0" then some 42 else none,
    getChannel := fun _ port channel =>
      if port = "wasm.C1" ∧ channel = "channel-0" then
        some { counterparty := { portId := "transfer", channelId := "channel-7" } }
      else none,
    sendPacket := fun _ _ _ => none }

/-- A capability store owning exactly the `(wasm.C1, channel-0)` channel
capability. -/
def testCapabilityKeeper : CapabilityKeeper :=
  { getCapability := fun _ path =>
      if path = channelCapabilityPath "wasm.C1" "channel-0" then some 5 else none }

/-- The cross-chain packet handler over the test stores. -/
def testIBCHandler : IBCRawPacketHandler :=
  NewIBCRawPacketHandler testChannelKeeper testCapabilityKeeper

/-- The spec's example send-packet message: channel `channel-0`, payload
`0x01 0x02`, block timeout `(1, 1000)`, timestamp timeout 0. -/
def sendPacketScenarioMsg : CosmosMsg :=
  { ibc := some
      { sendPacket := some
          { channelID := "channel-0", data := [1, 2],
            timeout :=
              { block := some { revision := 1, height := 1000 }, timestamp := 0 } } } }

/-- A coin ledger on which transfer and burn always succeed. -/
def happyBurner : Burner :=
  { sendCoinsFromAccountToModule := fun _ _ _ _ => none,
    burnCoins := fun _ _ _ => none }

/-- The spec's example burn message: 100uatom. -/
def burnScenarioMsg : CosmosMsg :=
  { bank := some { burn := some { amount := [{ denom := "uatom", amount := "100" }] } } }

/-! ### Helper lemmas -/

/-- Handlers whose error matches `ErrUnknownMsg` are skipped by the chain
loop. -/
theorem dispatchChainList_skip_unknown (ctx : SdkContext) (contractAddr : AccAddress)
    (contractIBCPortID : String) (msg : CosmosMsg) (rest : List Messenger) :
    ∀ pre : List Messenger,
      (∀ g ∈ pre, ∃ e, (g ctx contractAddr contractIBCPortID msg).2.2 = some e ∧
        e.isUnknownMsgErr = true) →
      dispatchChainList ctx contractAddr contractIBCPortID msg (pre ++ rest) =
        dispatchChainList ctx contractAddr contractIBCPortID msg rest := by
  intro pre
  induction pre with
  | nil => intro _; rfl
  | cons g pre' ih =>
    intro hpre
    obtain ⟨e, hge, htrue⟩ := hpre g (List.mem_cons_self _ _)
    rcases hg : g ctx contractAddr contractIBCPortID msg with ⟨gev, gpair⟩
    rcases gpair with ⟨gda, gerr⟩
    rw [hg] at hge
    have hge' : gerr = some e := hge
    subst hge'
    simp only [List.cons_append, dispatchChainList, hg, htrue, if_true]
    exact ih fun g' hg' => hpre g' (List.mem_cons_of_mem _ hg')

/-- Lists of optional handlers containing a `none` make `collectHandlers`
fail. -/
theorem collectHandlers_none_mem :
    ∀ (l : List (Option Messenger)) (i : Nat), none ∈ l →
      ∀ hs, collectHandlers l i ≠ .ok hs := by
  intro l
  induction l with
  | nil => intro i h; exact absurd h (List.not_mem_nil _)
  | cons o rest ih =>
    intro i h hs
    cases o with
    | none => simp [collectHandlers]
    | some g =>
      have hrest : none ∈ rest := by
        rcases List.mem_cons.mp h with h1 | h2
        · exact absurd h1.symm (Option.some_ne_none g)
        · exact h2
      simp only [collectHandlers]
      cases hr : collectHandlers rest (i + 1) with
      | error e => simp
      | ok hs' => exact absurd hr (ih (i + 1) hrest hs')

/-- Lists of optional handlers with no `none` make `collectHandlers`
succeed, producing exactly the unwrapped handlers. -/
theorem collectHandlers_all_some :
    ∀ (l : List (Option Messenger)) (i : Nat), (∀ h ∈ l, h ≠ none) →
      ∃ hs, collectHandlers l i = .ok hs ∧ l = hs.map some := by
  intro l
  induction l with
  | nil => intro i _; exact ⟨[], rfl, rfl⟩
  | cons o rest ih =>
    intro i h
    cases o with
    | none => exact absurd rfl (h none (List.mem_cons_self _ _))
    | some g =>
      obtain ⟨hs, hok, hmap⟩ := ih (i + 1) fun h' hm => h h' (List.mem_cons_of_mem _ hm)
      exact ⟨g :: hs, by simp [collectHandlers, hok], by simp [hmap]⟩

/-! ### Claim theorems -/

/-- C2: the dispatch chain tries handlers strictly in list order and
returns, unchanged, the result of the first handler whose error is nil or
does not match `ErrUnknownMsg`; the handlers before it (all reporting
`ErrUnknownMsg`) contribute nothing, and the handlers after it do not
matter (the conclusion holds for every `post`). -/
theorem chain_dispatch_short_circuit (ctx : SdkContext) (contractAddr : AccAddress)
    (contractIBCPortID : String) (msg : CosmosMsg) (pre : List Messenger) (h : Messenger)
    (post : List Messenger)
    (hpre : ∀ g ∈ pre, ∃ e, (g ctx contractAddr contractIBCPortID msg).2.2 = some e ∧
      e.isUnknownMsgErr = true)
    (hh : (h ctx contractAddr contractIBCPortID msg).2.2 = none ∨
      ∃ e, (h ctx contractAddr contractIBCPortID msg).2.2 = some e ∧
        e.isUnknownMsgErr = false) :
    MessageHandlerChain.DispatchMsg ⟨pre ++ h :: post⟩ ctx contractAddr contractIBCPortID msg =
      h ctx contractAddr contractIBCPortID msg := by
  unfold MessageHandlerChain.DispatchMsg
  rw [dispatchChainList_skip_unknown ctx contractAddr contractIBCPortID msg (h :: post) pre hpre]
  rcases hr : h ctx contractAddr contractIBCPortID msg with ⟨ev, rest⟩
  rcases rest with ⟨da, err⟩
  rcases hh with hnone | ⟨e, hsome, hfalse⟩
  · have : err = none := by rw [hr] at hnone; exact hnone
    subst this
    simp [dispatchChainList, hr]
  · have : err = some e := by rw [hr] at hsome; exact hsome
    subst this
    simp [dispatchChainList, hr, hfalse]

/-- C2 witness: handlers `[unknown, const, failing]` — the chain returns
the const handler's result, untouched by the failing handler after it. -/
theorem chain_dispatch_short_circuit_witness :
    MessageHandlerChain.DispatchMsg ⟨[unknownMessenger, constMessenger, failingMessenger]⟩
      0 "contract1" "" {} = (["evA"], [[3]], none) := by
  have h := chain_dispatch_short_circuit 0 "contract1" "" {} [unknownMessenger] constMessenger
    [failingMessenger]
    (fun g hg => by
      rw [List.mem_singleton.mp hg]
      exact ⟨.unknownMsg, rfl, rfl⟩)
    (Or.inl rfl)
  exact h.trans rfl

/-- C3 counterexample: when every handler reports `ErrUnknownMsg`, the
terminal `"no handler found"` error returned by the chain still matches
`ErrUnknownMsg` in the sense of Go's `errors.Is` (it is
`sdkerrors.Wrap(types.ErrUnknownMsg, "no handler found")`), so the
unknown-message error kind is surfaced to the caller of the whole chain,
contradicting the claim. -/
theorem chain_unknown_kind_surfaced_cex :
    ∃ e, (MessageHandlerChain.DispatchMsg ⟨[unknownMessenger]⟩ 0 "contract1" "" {}).2.2 =
      some e ∧ e.isUnknownMsgErr = true :=
  ⟨.wrapped "no handler found" .unknownMsg, rfl, rfl⟩

/-- C3 (amended): when every handler reports an error matching
`ErrUnknownMsg`, the chain fails with
`Wrap(ErrUnknownMsg, "no handler found")` — a terminal error value that
is not the bare `ErrUnknownMsg` sentinel itself, but that still matches
the unknown-message kind under `errors.Is`. -/
theorem chain_all_unknown_terminal (ctx : SdkContext) (contractAddr : AccAddress)
    (contractIBCPortID : String) (msg : CosmosMsg) (handlers : List Messenger)
    (hall : ∀ g ∈ handlers, ∃ e, (g ctx contractAddr contractIBCPortID msg).2.2 = some e ∧
      e.isUnknownMsgErr = true) :
    MessageHandlerChain.DispatchMsg ⟨handlers⟩ ctx contractAddr contractIBCPortID msg =
      ([], [], some (.wrapped "no handler found" .unknownMsg)) ∧
    DispatchError.wrapped "no handler found" .unknownMsg ≠ .unknownMsg ∧
    DispatchError.isUnknownMsgErr (.wrapped "no handler found" .unknownMsg) = true := by
  refine ⟨?_, by decide, rfl⟩
  unfold MessageHandlerChain.DispatchMsg
  have h := dispatchChainList_skip_unknown ctx contractAddr contractIBCPortID msg [] handlers
    hall
  simpa using h

/-- C3 witness: a chain of two all-unknown handlers fails with the
terminal wrapped error. -/
theorem chain_all_unknown_terminal_witness :
    MessageHandlerChain.DispatchMsg ⟨[unknownMessenger, unknownMessenger]⟩ 0 "contract1" "" {} =
      ([], [], some (.wrapped "no handler found" .unknownMsg)) := by
  have h := chain_all_unknown_terminal 0 "contract1" "" {} [unknownMessenger, unknownMessenger]
    (fun g hg => by
      rcases List.mem_cons.mp hg with h1 | h2
      · rw [h1]; exact ⟨.unknownMsg, rfl, rfl⟩
      · rw [List.mem_singleton.mp h2]; exact ⟨.unknownMsg, rfl, rfl⟩)
  exact h.1

/-- C9: constructing a dispatch chain with a nil handler in any position
fails immediately at construction time (the Go `panic`, modelled as the
`error` branch), and construction from an all-non-nil, non-empty list
succeeds, holding exactly the given handlers. -/
theorem newMessageHandlerChain_nil_check (first : Option Messenger)
    (others : List (Option Messenger)) :
    (none ∈ first :: others → ∀ c, NewMessageHandlerChain first others ≠ .ok c) ∧
    ((∀ h ∈ first :: others, h ≠ none) →
      ∃ hs, NewMessageHandlerChain first others = .ok ⟨hs⟩ ∧ first :: others = hs.map some) := by
  constructor
  · intro hmem c hok
    unfold NewMessageHandlerChain at hok
    cases hcol : collectHandlers (first :: others) 0 with
    | error e => rw [hcol] at hok; exact absurd hok (by simp)
    | ok hs => exact collectHandlers_none_mem (first :: others) 0 hmem hs hcol
  · intro hall
    obtain ⟨hs, hok, hmap⟩ := collectHandlers_all_some (first :: others) 0 hall
    exact ⟨hs, by simp [NewMessageHandlerChain, hok], hmap⟩

/-- C9 witness: a nil in position 1 makes construction fail; an all-valid
two-element list constructs the chain holding those two handlers. -/
theorem newMessageHandlerChain_nil_check_witness :
    (∀ c, NewMessageHandlerChain (some unknownMessenger) [none] ≠ .ok c) ∧
    (∃ hs, NewMessageHandlerChain (some unknownMessenger) [some constMessenger] = .ok ⟨hs⟩ ∧
      [some unknownMessenger, some constMessenger] = hs.map some) := by
  constructor
  · exact (newMessageHandlerChain_nil_check (some unknownMessenger) [none]).1 (by simp)
  · exact (newMessageHandlerChain_nil_check (some unknownMessenger) [some constMessenger]).2
      (by simp)

/-- C1 counterexample: a host operation with an *empty* declared signer
list — whose signer set is therefore not the singleton of the contract
address — is not rejected: the authorization loop is vacuous and the
operation is routed and succeeds. -/
theorem handleSdkMessage_empty_signers_cex :
    noSignerMsg.signers = [] ∧ "contract1" ∉ noSignerMsg.signers ∧
    modernOnlyHandler.handleSdkMessage 0 "contract1" noSignerMsg =
      .ok { data := [7], events := ["routed"] } :=
  ⟨rfl, by simp [noSignerMsg], rfl⟩

/-- C1 (amended): for every host operation that passes self-validation,
if *some* declared signer differs from the contract address, dispatch
fails with `Unauthorized` ("contract doesn't have permission"),
regardless of the routers; an operation with an empty signer list,
however, passes the authorization check vacuously. -/
theorem handleSdkMessage_unauthorized (h : SDKMessageHandler) (ctx : SdkContext)
    (contractAddr : AccAddress) (msg : SdkMsgSig) (hv : msg.validateBasic = none)
    (a : AccAddress) (ha : a ∈ msg.signers) (hne : a ≠ contractAddr) :
    h.handleSdkMessage ctx contractAddr msg =
      .error (.wrapped "contract doesn't have permission" .unauthorized) := by
  unfold SDKMessageHandler.handleSdkMessage
  rw [hv]
  have hall : msg.signers.all (fun acct => acct == contractAddr) = false := by
    rw [← Bool.not_eq_true, List.all_eq_true]
    push_neg
    exact ⟨a, ha, by simp [hne]⟩
  simp [hall]

/-- C1 witness: an operation signed by `"other"` dispatched for contract
`"contract1"` fails with `Unauthorized`. -/
theorem handleSdkMessage_unauthorized_witness :
    modernOnlyHandler.handleSdkMessage 0 "contract1" badSignerMsg =
      .error (.wrapped "contract doesn't have permission" .unauthorized) :=
  handleSdkMessage_unauthorized modernOnlyHandler 0 "contract1" badSignerMsg rfl "other"
    (by simp [badSignerMsg]) (by decide)

/-- C7: for a host operation that passes validation and authorization
(and with the modern service router present, as in any correctly wired
handler), routing consults the modern service router first and uses its
handler's result when one is declared; only otherwise is the operation's
legacy routing key looked up in the legacy route table; if neither router
recognizes the operation, the call fails with `UnknownRequest` naming the
route respectively the operation. -/
theorem handleSdkMessage_routing (h : SDKMessageHandler) (ctx : SdkContext)
    (contractAddr : AccAddress) (msg : SdkMsgSig) (mr : SdkMsgSig → Option SdkHandler)
    (hv : msg.validateBasic = none)
    (hs : msg.signers.all (fun acct => acct == contractAddr) = true)
    (hmr : h.msgRouter = some mr) :
    (∀ hd, mr msg = some hd →
      h.handleSdkMessage ctx contractAddr msg = hd ctx msg) ∧
    (∀ route hd, mr msg = none → msg.legacyRoute = some route → h.router ctx route = some hd →
      h.handleSdkMessage ctx contractAddr msg = hd ctx msg) ∧
    (∀ route, mr msg = none → msg.legacyRoute = some route → h.router ctx route = none →
      h.handleSdkMessage ctx contractAddr msg =
        .error (.wrapped ("unrecognized message route: " ++ route ++ "; message")
          .unknownRequest)) ∧
    (mr msg = none → msg.legacyRoute = none →
      h.handleSdkMessage ctx contractAddr msg =
        .error (.wrapped ("can't route message " ++ msg.display) .unknownRequest)) := by
  refine ⟨?_, ?_, ?_, ?_⟩
  · intro hd hhd
    unfold SDKMessageHandler.handleSdkMessage
    rw [hv, hmr]
    simp only [hs, if_true, hhd]
    cases hres : hd ctx msg with
    | error e => simp [hres]
    | ok res => simp [hres]
  · intro route hd hnone hroute hhd
    unfold SDKMessageHandler.handleSdkMessage
    rw [hv, hmr]
    simp only [hs, if_true, hnone, hroute, hhd]
    cases hres : hd ctx msg with
    | error e => simp [hres]
    | ok res => simp [hres]
  · intro route hnone hroute hmiss
    unfold SDKMessageHandler.handleSdkMessage
    rw [hv, hmr]
    simp [hs, hnone, hroute, hmiss]
  · intro hnone hroute
    unfold SDKMessageHandler.handleSdkMessage
    rw [hv, hmr]
    simp [hs, hnone, hroute]

/-- C7 witness: with the modern router accepting, the ADR-031 handler's
result is used; with the modern router declaring no handler, the legacy
`"bank"` route is looked up and used. -/
theorem handleSdkMessage_routing_witness :
    modernOnlyHandler.handleSdkMessage 0 "contract1" goodMsg =
      .ok { data := [7], events := ["routed"] } ∧
    legacyOnlyHandler.handleSdkMessage 0 "contract1" legacyRoutedMsg =
      .ok { data := [7], events := ["routed"] } := by
  constructor
  · have h := (handleSdkMessage_routing modernOnlyHandler 0 "contract1" goodMsg
      (fun _ => some acceptAllSdkHandler) rfl (by decide) rfl).1 acceptAllSdkHandler rfl
    exact h.trans rfl
  · have h := (handleSdkMessage_routing legacyOnlyHandler 0 "contract1" legacyRoutedMsg
      (fun _ => none) rfl (by decide) rfl).2.1 "bank" acceptAllSdkHandler rfl rfl rfl
    exact h.trans rfl

/-- When every encoded message handles successfully, the dispatch loop
appends each result's events and data blob, in order, to the
accumulators. -/
theorem dispatchLoop_all_ok (h : SDKMessageHandler) (ctx : SdkContext)
    (contractAddr : AccAddress) :
    ∀ (ops : List SdkMsgSig) (rs : List SdkResult),
      ops.map (h.handleSdkMessage ctx contractAddr) = rs.map Except.ok →
      ∀ evAcc dataAcc,
        h.dispatchLoop ctx contractAddr ops evAcc dataAcc =
          (evAcc ++ (rs.map SdkResult.events).flatten, dataAcc ++ rs.map SdkResult.data, none) := by
  intro ops
  induction ops with
  | nil =>
    intro rs hmap evAcc dataAcc
    have : rs = [] := by
      cases rs with
      | nil => rfl
      | cons r rs' => simp at hmap
    subst this
    simp [SDKMessageHandler.dispatchLoop]
  | cons m ops' ih =>
    intro rs hmap evAcc dataAcc
    cases rs with
    | nil => simp at hmap
    | cons r rs' =>
      simp only [List.map_cons, List.cons.injEq] at hmap
      obtain ⟨hm, hrest⟩ := hmap
      simp only [SDKMessageHandler.dispatchLoop, hm]
      rw [ih rs' hrest (evAcc ++ r.events) (dataAcc ++ [r.data])]
      simp

/-- When an encoded message fails after a prefix of successes, the
dispatch loop aborts with `(nil, nil, err)`. -/
theorem dispatchLoop_first_error (h : SDKMessageHandler) (ctx : SdkContext)
    (contractAddr : AccAddress) :
    ∀ (pre : List SdkMsgSig) (m : SdkMsgSig) (post : List SdkMsgSig) (e : DispatchError),
      (∀ m' ∈ pre, ∃ r, h.handleSdkMessage ctx contractAddr m' = .ok r) →
      h.handleSdkMessage ctx contractAddr m = .error e →
      ∀ evAcc dataAcc,
        h.dispatchLoop ctx contractAddr (pre ++ m :: post) evAcc dataAcc = ([], [], some e) := by
  intro pre
  induction pre with
  | nil =>
    intro m post e _ hm evAcc dataAcc
    simp [SDKMessageHandler.dispatchLoop, hm]
  | cons m0 pre' ih =>
    intro m post e hpre hm evAcc dataAcc
    obtain ⟨r, hr⟩ := hpre m0 (List.mem_cons_self _ _)
    simp only [List.cons_append, SDKMessageHandler.dispatchLoop, hr]
    exact ih m post e (fun m' hm' => hpre m' (List.mem_cons_of_mem _ hm')) hm _ _

/-- C8: the standard handler propagates an encoder error unchanged with
no events and no data; if some encoded host operation fails (the earlier
ones having succeeded), the whole call returns that error with no events
and no data (no partial results); when all operations succeed, the data
blobs and events of all operations are concatenated in encoding order. -/
theorem sdk_dispatchMsg_batch (h : SDKMessageHandler) (ctx : SdkContext)
    (contractAddr : AccAddress) (contractIBCPortID : String) (msg : CosmosMsg) :
    (∀ e, h.encoders ctx contractAddr contractIBCPortID msg = .error e →
      h.DispatchMsg ctx contractAddr contractIBCPortID msg = ([], [], some e)) ∧
    (∀ pre m post e,
      h.encoders ctx contractAddr contractIBCPortID msg = .ok (pre ++ m :: post) →
      (∀ m' ∈ pre, ∃ r, h.handleSdkMessage ctx contractAddr m' = .ok r) →
      h.handleSdkMessage ctx contractAddr m = .error e →
      h.DispatchMsg ctx contractAddr contractIBCPortID msg = ([], [], some e)) ∧
    (∀ (ops : List SdkMsgSig) (rs : List SdkResult),
      h.encoders ctx contractAddr contractIBCPortID msg = .ok ops →
      ops.map (h.handleSdkMessage ctx contractAddr) = rs.map Except.ok →
      h.DispatchMsg ctx contractAddr contractIBCPortID msg =
        ((rs.map SdkResult.events).flatten, rs.map SdkResult.data, none)) := by
  refine ⟨?_, ?_, ?_⟩
  · intro e he
    simp [SDKMessageHandler.DispatchMsg, he]
  · intro pre m post e henc hpre hm
    simp only [SDKMessageHandler.DispatchMsg, henc]
    exact dispatchLoop_first_error h ctx contractAddr pre m post e hpre hm [] []
  · intro ops rs henc hmap
    simp only [SDKMessageHandler.DispatchMsg, henc]
    rw [dispatchLoop_all_ok h ctx contractAddr ops rs hmap [] []]
    simp

/-- C8 witness: an encoder yielding two routable operations produces the
concatenated events and data of both, and an encoder failing with
`ErrUnknownMsg` yields exactly `(nil, nil, ErrUnknownMsg)`. -/
theorem sdk_dispatchMsg_batch_witness :
    batchEncHandler.DispatchMsg 0 "contract1" "" {} = (["routed", "routed"], [[7], [7]], none) ∧
    modernOnlyHandler.DispatchMsg 0 "contract1" "" {} = ([], [], some .unknownMsg) := by
  constructor
  · have h := (sdk_dispatchMsg_batch batchEncHandler 0 "contract1" "" {}).2.2
      [goodMsg, goodMsg] [{ data := [7], events := ["routed"] }, { data := [7], events := ["routed"] }]
      rfl rfl
    exact h.trans rfl
  · exact (sdk_dispatchMsg_batch modernOnlyHandler 0 "contract1" "" {}).1 .unknownMsg rfl

/-- C4: for send-packet messages the cross-chain handler's precondition
checks occur in order, each failure yielding its specific error — empty
port: `UnsupportedForContract`; empty channel: `Empty`; missing next-send
sequence: `SequenceSendNotFound` naming port and channel; missing channel
descriptor: `InvalidChannel`; missing capability:
`ChannelCapabilityNotFound` — and a packet is submitted only when every
check passes. -/
theorem ibc_precondition_errors (h : IBCRawPacketHandler) (ctx : SdkContext)
    (contractAddr : AccAddress) (contractIBCPortID : String) (msg : CosmosMsg)
    (ibcMsg : IBCMsg) (sp : SendPacketMsg)
    (hibc : msg.ibc = some ibcMsg) (hsp : ibcMsg.sendPacket = some sp) :
    (contractIBCPortID = "" →
      h.dispatchWithPacket ctx contractAddr contractIBCPortID msg =
        (([], [], some (.wrapped "ibc not supported" .unsupportedForContract)), none)) ∧
    (contractIBCPortID ≠ "" → sp.channelID = "" →
      h.dispatchWithPacket ctx contractAddr contractIBCPortID msg =
        (([], [], some (.wrapped "ibc channel" .emptyErr)), none)) ∧
    (contractIBCPortID ≠ "" → sp.channelID ≠ "" →
      h.channelKeeper.getNextSequenceSend ctx contractIBCPortID sp.channelID = none →
      h.dispatchWithPacket ctx contractAddr contractIBCPortID msg =
        (([], [],
          some (.wrapped
            ("source port: " ++ contractIBCPortID ++ ", source channel: " ++ sp.channelID)
            .sequenceSendNotFound)), none)) ∧
    (∀ seq : Nat, contractIBCPortID ≠ "" → sp.channelID ≠ "" →
      h.channelKeeper.getNextSequenceSend ctx contractIBCPortID sp.channelID = some seq →
      h.channelKeeper.getChannel ctx contractIBCPortID sp.channelID = none →
      h.dispatchWithPacket ctx contractAddr contractIBCPortID msg =
        (([], [], some (.wrapped "not found" .invalidChannel)), none)) ∧
    (∀ (seq : Nat) (ci : Channel), contractIBCPortID ≠ "" → sp.channelID ≠ "" →
      h.channelKeeper.getNextSequenceSend ctx contractIBCPortID sp.channelID = some seq →
      h.channelKeeper.getChannel ctx contractIBCPortID sp.channelID = some ci →
      h.capabilityKeeper.getCapability ctx
        (channelCapabilityPath contractIBCPortID sp.channelID) = none →
      h.dispatchWithPacket ctx contractAddr contractIBCPortID msg =
        (([], [],
          some (.wrapped "module does not own channel capability"
            .channelCapabilityNotFound)), none)) ∧
    (∀ p : Packet, (h.dispatchWithPacket ctx contractAddr contractIBCPortID msg).2 = some p →
      contractIBCPortID ≠ "" ∧ sp.channelID ≠ "" ∧
      (∃ seq, h.channelKeeper.getNextSequenceSend ctx contractIBCPortID sp.channelID =
        some seq) ∧
      (∃ ci, h.channelKeeper.getChannel ctx contractIBCPortID sp.channelID = some ci) ∧
      (∃ cap, h.capabilityKeeper.getCapability ctx
        (channelCapabilityPath contractIBCPortID sp.channelID) = some cap)) := by
  refine ⟨?_, ?_, ?_, ?_, ?_, ?_⟩
  · intro hp
    simp [IBCRawPacketHandler.dispatchWithPacket, hibc, hsp, hp]
  · intro hp hc
    simp [IBCRawPacketHandler.dispatchWithPacket, hibc, hsp, hp, hc]
  · intro hp hc hseq
    simp [IBCRawPacketHandler.dispatchWithPacket, hibc, hsp, hp, hc, hseq]
  · intro seq hp hc hseq hchan
    simp [IBCRawPacketHandler.dispatchWithPacket, hibc, hsp, hp, hc, hseq, hchan]
  · intro seq ci hp hc hseq hchan hcap
    simp [IBCRawPacketHandler.dispatchWithPacket, hibc, hsp, hp, hc, hseq, hchan, hcap]
  · intro p hsub
    by_cases hp : contractIBCPortID = ""
    · simp [IBCRawPacketHandler.dispatchWithPacket, hibc, hsp, hp] at hsub
    · by_cases hc : sp.channelID = ""
      · simp [IBCRawPacketHandler.dispatchWithPacket, hibc, hsp, hp, hc] at hsub
      · cases hseq : h.channelKeeper.getNextSequenceSend ctx contractIBCPortID sp.channelID with
        | none =>
          simp [IBCRawPacketHandler.dispatchWithPacket, hibc, hsp, hp, hc, hseq] at hsub
        | some seq =>
          cases hchan : h.channelKeeper.getChannel ctx contractIBCPortID sp.channelID with
          | none =>
            simp [IBCRawPacketHandler.dispatchWithPacket, hibc, hsp, hp, hc, hseq, hchan]
              at hsub
          | some ci =>
            cases hcap : h.capabilityKeeper.getCapability ctx
                (channelCapabilityPath contractIBCPortID sp.channelID) with
            | none =>
              simp [IBCRawPacketHandler.dispatchWithPacket, hibc, hsp, hp, hc, hseq, hchan,
                hcap] at hsub
            | some cap =>
              exact ⟨hp, hc, ⟨seq, rfl⟩, ⟨ci, rfl⟩, ⟨cap, rfl⟩⟩

/-- C4 witness: with an empty contract port the handler fails with
`UnsupportedForContract`; with a port having no next-send sequence it
fails with `SequenceSendNotFound` naming the port and channel; neither
case submits a packet. -/
theorem ibc_precondition_errors_witness :
    testIBCHandler.dispatchWithPacket 0 "contract1" "" sendPacketScenarioMsg =
      (([], [], some (.wrapped "ibc not supported" .unsupportedForContract)), none) ∧
    testIBCHandler.dispatchWithPacket 0 "contract1" "wasm.C2" sendPacketScenarioMsg =
      (([], [],
        some (.wrapped ("source port: " ++ "wasm.C2" ++ ", source channel: " ++ "channel-0")
          .sequenceSendNotFound)), none) := by
  constructor
  · exact (ibc_precondition_errors testIBCHandler 0 "contract1" "" sendPacketScenarioMsg
      _ _ rfl rfl).1 rfl
  · exact (ibc_precondition_errors testIBCHandler 0 "contract1" "wasm.C2" sendPacketScenarioMsg
      _ _ rfl rfl).2.2.1 (by decide) (by decide) rfl

/-- C5: when all precondition checks pass, the submitted packet is fully
determined by the inputs — sequence from the store, source port/channel
from the contract port and the message, destination from the fetched
channel's counterparty, data and (converted) timeout fields from the
message — the handler returns empty events and data with the submission
outcome propagated unchanged. -/
theorem ibc_packet_determined (h : IBCRawPacketHandler) (ctx : SdkContext)
    (contractAddr : AccAddress) (contractIBCPortID : String) (msg : CosmosMsg)
    (ibcMsg : IBCMsg) (sp : SendPacketMsg) (seq : Nat) (ci : Channel) (cap : Capability)
    (hibc : msg.ibc = some ibcMsg) (hsp : ibcMsg.sendPacket = some sp)
    (hport : contractIBCPortID ≠ "") (hch : sp.channelID ≠ "")
    (hseq : h.channelKeeper.getNextSequenceSend ctx contractIBCPortID sp.channelID = some seq)
    (hci : h.channelKeeper.getChannel ctx contractIBCPortID sp.channelID = some ci)
    (hcap : h.capabilityKeeper.getCapability ctx
      (channelCapabilityPath contractIBCPortID sp.channelID) = some cap) :
    h.dispatchWithPacket ctx contractAddr contractIBCPortID msg =
      (([], [],
        h.channelKeeper.sendPacket ctx cap
          { data := sp.data, sequence := seq, sourcePort := contractIBCPortID,
            sourceChannel := sp.channelID, destinationPort := ci.counterparty.portId,
            destinationChannel := ci.counterparty.channelId,
            timeoutHeight := convertWasmIBCTimeoutHeightToCosmosHeight sp.timeout.block,
            timeoutTimestamp := sp.timeout.timestamp }),
        some
          { data := sp.data, sequence := seq, sourcePort := contractIBCPortID,
            sourceChannel := sp.channelID, destinationPort := ci.counterparty.portId,
            destinationChannel := ci.counterparty.channelId,
            timeoutHeight := convertWasmIBCTimeoutHeightToCosmosHeight sp.timeout.block,
            timeoutTimestamp := sp.timeout.timestamp }) := by
  simp [IBCRawPacketHandler.dispatchWithPacket, hibc, hsp, hport, hch, hseq, hci, hcap,
    NewPacket]

/-- C5 witness: the spec's example scenario — channel `channel-0`,
payload `0x01 0x02`, block timeout `(1, 1000)`, port `wasm.C1`, store
sequence 42 — submits exactly the expected packet and succeeds with empty
events and data. -/
theorem ibc_packet_determined_witness :
    testIBCHandler.dispatchWithPacket 0 "contract1" "wasm.C1" sendPacketScenarioMsg =
      (([], [], none),
        some
          { data := [1, 2], sequence := 42, sourcePort := "wasm.C1",
            sourceChannel := "channel-0", destinationPort := "transfer",
            destinationChannel := "channel-7",
            timeoutHeight := { revisionNumber := 1, revisionHeight := 1000 },
            timeoutTimestamp := 0 }) := by
  have h := ibc_packet_determined testIBCHandler 0 "contract1" "wasm.C1" sendPacketScenarioMsg
    _ _ 42 { counterparty := { portId := "transfer", channelId := "channel-7" } } 5
    rfl rfl (by decide) (by decide) rfl rfl rfl
  exact h.trans rfl

/-- C10: the cross-chain packet handler ignores the invoking contract
address — for any two contract addresses with the same context, port and
message, both the returned result and the submitted packet coincide. -/
theorem ibc_dispatch_contract_independent (h : IBCRawPacketHandler) (ctx : SdkContext)
    (addr1 addr2 : AccAddress) (contractIBCPortID : String) (msg : CosmosMsg) :
    h.DispatchMsg ctx addr1 contractIBCPortID msg =
      h.DispatchMsg ctx addr2 contractIBCPortID msg ∧
    h.dispatchWithPacket ctx addr1 contractIBCPortID msg =
      h.dispatchWithPacket ctx addr2 contractIBCPortID msg :=
  ⟨rfl, rfl⟩

/-- C6: for burn messages whose amount converts successfully, the handler
performs exactly the transfer-to-module call followed by the burn call,
both with the same coins; a transfer failure aborts (no burn call) with
the error wrapped as "transfer to module", a burn failure aborts with the
error wrapped as "burn coins", and on success the handler returns empty
events and empty data. -/
theorem burn_handler_ledger_calls (burner : Burner) (ctx : SdkContext)
    (contractAddr : AccAddress) (contractIBCPortID : String) (msg : CosmosMsg)
    (bankMsg : BankMsg) (bm : BurnMsg) (coins : List Coin)
    (hb : msg.bank = some bankMsg) (hbb : bankMsg.burn = some bm)
    (hc : convertWasmCoinsToSdkCoins bm.amount = .ok coins) :
    (burner.sendCoinsFromAccountToModule ctx contractAddr ModuleName coins = none →
      burner.burnCoins ctx ModuleName coins = none →
      burnCoinHandlerWithTrace burner ctx contractAddr contractIBCPortID msg =
        (([], [], none),
          [.transferToModule contractAddr ModuleName coins, .burn ModuleName coins])) ∧
    (∀ e, burner.sendCoinsFromAccountToModule ctx contractAddr ModuleName coins = some e →
      burnCoinHandlerWithTrace burner ctx contractAddr contractIBCPortID msg =
        (([], [], some (.wrapped "transfer to module" e)),
          [.transferToModule contractAddr ModuleName coins])) ∧
    (∀ e, burner.sendCoinsFromAccountToModule ctx contractAddr ModuleName coins = none →
      burner.burnCoins ctx ModuleName coins = some e →
      burnCoinHandlerWithTrace burner ctx contractAddr contractIBCPortID msg =
        (([], [], some (.wrapped "burn coins" e)),
          [.transferToModule contractAddr ModuleName coins, .burn ModuleName coins])) := by
  refine ⟨?_, ?_, ?_⟩
  · intro hsend hburn
    simp [burnCoinHandlerWithTrace, hb, hbb, hc, hsend, hburn]
  · intro e hsend
    simp [burnCoinHandlerWithTrace, hb, hbb, hc, hsend]
  · intro e hsend hburn
    simp [burnCoinHandlerWithTrace, hb, hbb, hc, hsend, hburn]

/-- C6 witness: the spec's example — burning 100uatom from contract `C1`
transfers 100uatom from `C1` to the wasm module account, then burns
100uatom from the module account, returning empty events and data. -/
theorem burn_handler_ledger_calls_witness :
    burnCoinHandlerWithTrace happyBurner 0 "C1" "" burnScenarioMsg =
      (([], [], none),
        [.transferToModule "C1" ModuleName [{ denom := "uatom", amount := 100 }],
          .burn ModuleName [{ denom := "uatom", amount := 100 }]]) :=
  (burn_handler_ledger_calls happyBurner 0 "C1" "" burnScenarioMsg _ _
    [{ denom := "uatom", amount := 100 }] rfl rfl rfl).1 rfl rfl

end Wasmd
